import Mathlib

/-!
Verification of the AgentRPC polling agent (TypeScript SDK) against its
natural-language specification.  The embedding below follows
`src/unnamed/part_000` (the polling agent, `PollingAgent.processCall`,
`runLoop`, `pollForJobCompletion`, `createAndPollJob`) and
`src/sdk-node/src/agentrpc.ts` (the `AgentRPC` facade: constructor,
`register`, `listen`, `getClusterId`).  Leaf modules that the polling agent
imports but whose sources are not present (`execute-fn`, `util`,
`serialize-error`) are modelled from the spec where noted.
-/

/-- A JSON-like runtime value, distinguishing exactly the shapes the agent's
input check distinguishes: `null`, booleans, numbers, strings, arrays and
plain objects.  `typeof v === "object"` holds for `null`, arrays and objects;
the source additionally excludes `null` and arrays explicitly. -/
inductive JsonValue where
  | null : JsonValue
  | bool (b : Bool) : JsonValue
  | num (n : Int) : JsonValue
  | str (s : String) : JsonValue
  | arr (xs : List JsonValue) : JsonValue
  | obj (fields : List (String × JsonValue)) : JsonValue


/-- A thrown JavaScript error value, reduced to the two fields the spec says
serialization must preserve: class/name and message. -/
structure JsError where
  name : String
  message : String


/-- The serialized form of an error, as posted in a result's content. -/
structure SerializedError where
  name : String
  message : String


/-- Modelled from the spec: `serializeError` (src/sdk-node/src/serialize-error.ts
is not under src/).  Spec 4.2: "Error serialization must preserve at minimum an
error class/name and message, and must not throw itself". -/
def serializeError (e : JsError) : SerializedError :=
  ⟨e.name, e.message⟩

/-- The two result types the agent ever posts. -/
inductive ResultType where
  | success : ResultType
  | rejection : ResultType


/-- A posted result's content: either the handler's return value or a
serialized error. -/
inductive ResultContent where
  | value (v : JsonValue) : ResultContent
  | errorContent (e : SerializedError) : ResultContent


/-- The outcome of calling a handler: a returned value or a thrown error. -/
inductive HandlerOutcome where
  | ret (v : JsonValue) : HandlerOutcome
  | thrown (e : JsError) : HandlerOutcome

/-- A registration's `handler` field as stored: either a callable function or
some non-callable value (the facade checks `typeof handler !== "function"`). -/
inductive HandlerField where
  | callable (f : JsonValue → HandlerOutcome) : HandlerField
  | notCallable : HandlerField

/-- Whether the handler field is a function (`typeof ... === "function"`). -/
def HandlerField.isCallable : HandlerField → Bool
  | .callable _ => true
  | .notCallable => false

/-- The `Result` record produced by the function executor:
`{type, content, functionExecutionTime}`. -/
structure ExecResult where
  type : ResultType
  content : ResultContent
  functionExecutionTime : Nat


/-- Modelled from the spec: `executeFn` (src/sdk-node/src/execute-fn.ts is not
under src/).  Spec 4.2: always resolves, never propagates a thrown error; on
success `{type: success, content: handler(...args), functionExecutionTime:
elapsed}`; on thrown error `{type: rejection, content: serialized error,
functionExecutionTime: elapsed}`.  The measured wall-clock duration is passed
in as `elapsed`.  A non-callable handler faults inside the executor and is
likewise captured as a rejection. -/
def executeFn (handler : HandlerField) (args : JsonValue) (elapsed : Nat) :
    ExecResult :=
  match handler with
  | .callable f =>
    match f args with
    | .ret v => ⟨.success, .value v, elapsed⟩
    | .thrown e => ⟨.rejection, .errorContent (serializeError e), elapsed⟩
  | .notCallable =>
    ⟨.rejection,
     .errorContent (serializeError ⟨"TypeError", "handler is not a function"⟩),
     elapsed⟩

/-- A tool registration: `{name, schema, handler, description, config}`.
Modelled from the spec: `validateFunctionArgs` (src/sdk-node/src/util.ts is
not under src/), so a schema is embedded by its validation semantics — the
function that, given the candidate input, returns `some e` when validation
throws error `e` and `none` when it passes. -/
structure ToolRegistration where
  name : String
  schema : JsonValue → Option JsError
  handler : HandlerField
  description : Option String
  config : Option JsonValue

/-- A job message received from a poll: `{id, function, input?}`.
`input = none` models an absent/undefined input. -/
structure JobMessage where
  id : String
  function : String
  input : Option JsonValue

/-- The arguments of one `createJobResult` RPC call. -/
structure CreateJobResultCall where
  jobId : String
  clusterId : String
  result : ResultContent
  resultType : ResultType
  functionExecutionTime : Nat


/-- The observable events of processing one job, in order: a schema-validation
call, a handler invocation (inside the executor), or a `createJobResult`
request.  Each constructor corresponds to exactly one call site in
`PollingAgent.processCall`. -/
inductive AgentEvent where
  | validateCall (fname : String) (args : JsonValue) : AgentEvent
  | invokeHandler (fname : String) (args : JsonValue) : AgentEvent
  | postResult (r : CreateJobResultCall) : AgentEvent

/-- The exact message used by the invalid-shape rejection (the doubled
"invalid invalid" is verbatim from the source). -/
def invalidShapeMessage : String :=
  "Function was called with invalid invalid format. Expected an object."

/-- Whether the job input passes the shape check
`typeof args === "object" && !Array.isArray(args) && args !== null`:
it must be present and a plain object. -/
def isObjectInput : Option JsonValue → Bool
  | some (JsonValue.obj _) => true
  | _ => false

/-- `PollingAgent.processCall`, embedded as the trace of its observable
events.  Lookup is `tools.find(fn => fn.name === call.function)`; an unknown
function is logged and dropped (empty trace); an invalid input shape posts a
rejection with execution time 0 without validating; a validation failure posts
the serialized validation error with execution time 0; otherwise the executor
runs the handler on `args` and its result is posted verbatim. -/
def processCall (tools : List ToolRegistration) (clusterId : String)
    (call : JobMessage) (elapsed : Nat) : List AgentEvent :=
  match tools.find? (fun fn => fn.name == call.function) with
  | none => []
  | some registration =>
    match call.input with
    | some (JsonValue.obj fields) =>
      let args := JsonValue.obj fields
      match registration.schema args with
      | some e =>
        [AgentEvent.validateCall call.function args,
         AgentEvent.postResult
           ⟨call.id, clusterId, .errorContent (serializeError e), .rejection, 0⟩]
      | none =>
        let result := executeFn registration.handler args elapsed
        [AgentEvent.validateCall call.function args,
         AgentEvent.invokeHandler call.function args,
         AgentEvent.postResult
           ⟨call.id, clusterId, result.content, result.type,
            result.functionExecutionTime⟩]
    | _ =>
      [AgentEvent.postResult
        ⟨call.id, clusterId,
         .errorContent (serializeError ⟨"Error", invalidShapeMessage⟩),
         .rejection, 0⟩]

/-- Whether an event is a handler invocation. -/
def AgentEvent.isInvoke : AgentEvent → Bool
  | .invokeHandler _ _ => true
  | _ => false

/-- Whether an event is a schema-validation call. -/
def AgentEvent.isValidate : AgentEvent → Bool
  | .validateCall _ _ => true
  | _ => false

/-- Whether an event is a `createJobResult` call. -/
def AgentEvent.isPost : AgentEvent → Bool
  | .postResult _ => true
  | _ => false

/-- The `PollingAgent`'s own state: `{clusterId, tools, polling}` (the RPC
client and `retryAfter` carry no logic relevant here beyond the sleep). -/
structure PollingAgentState where
  clusterId : String
  tools : List ToolRegistration
  polling : Bool

/-- `PollingAgent.stop`: sets the polling flag to false. -/
def PollingAgent.stop (s : PollingAgentState) : PollingAgentState :=
  { s with polling := false }

/-- What one poll iteration does from the loop's point of view: it either
completes or throws. -/
inductive IterOutcome where
  | ok : IterOutcome
  | err : IterOutcome

/-- The result of the `listJobs` transport call during an iteration. -/
inductive TransportResult where
  | jobs (js : List JobMessage) : TransportResult
  | transportError : TransportResult

/-- `PollingAgent.pollIteration`, reduced to whether it throws: it throws when
`clusterId` is falsy (empty) or the `listJobs` request rejects; per-job
processing runs under `Promise.allSettled` and never makes the iteration
throw. -/
def pollIterationOutcome (clusterId : String) (t : TransportResult) :
    IterOutcome :=
  if clusterId = "" then .err
  else
    match t with
    | .transportError => .err
    | .jobs _ => .ok

/-- The `failureCount` update of one `runLoop` iteration: an exception
increments it, a successful iteration resets it to 0 (the source resets only
when it was positive, which yields the same value). -/
def iterStep (failureCount : Nat) (o : IterOutcome) : Nat :=
  match o with
  | .ok => 0
  | .err => failureCount + 1

/-- The loop-relevant agent state: the polling flag and failure counter. -/
structure LoopState where
  polling : Bool
  failureCount : Nat

/-- `PollingAgent.runLoop` over a finite schedule of environment steps.  Each
schedule entry supplies the iteration's outcome and whether `stop()` was
called during that iteration (during its awaits).  At each iteration boundary
the loop checks `polling`; if true it runs the body (updating `failureCount`),
then the external stop, if any, takes effect before the next boundary.
Returns the final state and the number of iterations executed. -/
def runLoopSteps (s : LoopState) (sched : List (IterOutcome × Bool)) :
    LoopState × Nat :=
  match sched with
  | [] => (s, 0)
  | (o, stopRequested) :: rest =>
    if s.polling then
      let next := runLoopSteps ⟨!stopRequested, iterStep s.failureCount o⟩ rest
      (next.1, next.2 + 1)
    else
      (s, 0)

/-- `runLoop` entry: sets `polling := true` and `failureCount := 0`, then
iterates. -/
def runLoop (sched : List (IterOutcome × Bool)) : LoopState × Nat :=
  runLoopSteps ⟨true, 0⟩ sched

/-- One `getJob` response body: `{status, result, resultType}`, each possibly
null/absent. -/
structure GetJobResponse where
  status : Option String
  result : Option String
  resultType : Option String

/-- JavaScript `x || d` on a possibly-null string: the default is taken when
the value is null/absent or the empty string (falsy). -/
def jsOr (x : Option String) (d : String) : String :=
  match x with
  | none => d
  | some s => if s = "" then d else s

/-- The `while` guard of `pollForJobCompletion`, negated: the loop exits when
`status` is truthy and one of `"failure"`, `"done"`. -/
def isTerminal (status : Option String) : Bool :=
  match status with
  | none => false
  | some s => s == "failure" || s == "done"

/-- `pollForJobCompletion`: starting from the initial status/result/resultType
and call index `i` into the stream of `getJob` responses, loop until the
status is terminal, overwriting status/result/resultType from each response
(`result || ""`, `resultType || "rejection"`).  The source has no fuel — the
`fuel` argument caps how many loop steps the embedding unrolls, and `none`
means the loop had not exited within that many steps. -/
def pollForJobCompletion (responses : Nat → GetJobResponse) (i : Nat)
    (fuel : Nat) (status : Option String) (result resultType : String) :
    Option (String × String × String) :=
  match fuel with
  | 0 => none
  | Nat.succ fuel =>
    if isTerminal status then
      some (status.getD "", result, resultType)
    else
      let body := responses i
      pollForJobCompletion responses (i + 1) fuel body.status
        (jsOr body.result "") (jsOr body.resultType "rejection")

/-- The `createJob` response body: `{id, status, result?, resultType?}`. -/
structure CreateJobResponse where
  id : String
  status : Option String
  result : Option String
  resultType : Option String

/-- `createAndPollJob`: create the job, then poll for completion starting
from the creation response's status/result/resultType with the same falsy
defaults. -/
def createAndPollJob (responses : Nat → GetJobResponse) (fuel : Nat)
    (createResult : CreateJobResponse) : Option (String × String × String) :=
  pollForJobCompletion responses 0 fuel createResult.status
    (jsOr createResult.result "") (jsOr createResult.resultType "rejection")

/-- A `getJob` response stream that answers `pending` for the first `n` calls
and `done` afterwards; used to show the completion loop has no
maximum-attempts cutoff. -/
def pendingThenDone (n : Nat) : Nat → GetJobResponse :=
  fun i =>
    if i < n then ⟨some "pending", none, none⟩
    else ⟨some "done", some "ok", some "resolution"⟩

/-- The distinct configuration errors the facade throws (`AgentRPCError` with
the corresponding message). -/
inductive AgentRPCError where
  | noApiSecret : AgentRPCError
  | invalidApiSecret : AgentRPCError
  | mcpUuidRequired : AgentRPCError
  | duplicateToolName (name : String) : AgentRPCError
  | registerAfterListen : AgentRPCError
  | handlerNotFunction : AgentRPCError
  | alreadyListening : AgentRPCError
deriving DecidableEq

/-- The `AgentRPC` facade state: credential, derived cluster id, the tools
registry (an insertion-ordered name-keyed map) and the polling agents. -/
structure AgentRPCState where
  apiSecret : String
  clusterId : String
  toolsRegistry : List (String × ToolRegistration)
  pollingAgents : List PollingAgentState

/-- Lookup in the registry object by tool name. -/
def lookupTool (registry : List (String × ToolRegistration)) (name : String) :
    Option ToolRegistration :=
  match registry.find? (fun p => p.1 == name) with
  | some p => some p.2
  | none => none

/-- `AgentRPC.register`: rejects a duplicate name, then registration after a
listener exists, then a non-callable handler; otherwise inserts the
registration.  A thrown error leaves the state unchanged (the source throws
before any mutation). -/
def AgentRPC.register (s : AgentRPCState) (r : ToolRegistration) :
    AgentRPCState × Option AgentRPCError :=
  if (lookupTool s.toolsRegistry r.name).isSome then
    (s, some (.duplicateToolName r.name))
  else if s.pollingAgents.length > 0 then
    (s, some .registerAfterListen)
  else if !r.handler.isCallable then
    (s, some .handlerNotFunction)
  else
    ({ s with toolsRegistry := s.toolsRegistry ++ [(r.name, r)] }, none)

/-- `AgentRPC.listen`: throws if any polling agent exists, otherwise
constructs one polling agent over the whole registry and starts it. -/
def AgentRPC.listen (s : AgentRPCState) : AgentRPCState × Option AgentRPCError :=
  if s.pollingAgents.length > 0 then
    (s, some .alreadyListening)
  else
    let agent : PollingAgentState :=
      ⟨s.clusterId, s.toolsRegistry.map Prod.snd, true⟩
    ({ s with pollingAgents := s.pollingAgents ++ [agent] }, none)

/-- JavaScript `String.prototype.split` with a single-character separator,
on the underlying character list: `"".split(c)` is `[""]`, and separators at
the ends produce empty segments. -/
def splitOnChar (c : Char) : List Char → List (List Char)
  | [] => [[]]
  | x :: xs =>
    let rest := splitOnChar c xs
    if x = c then [] :: rest
    else
      match rest with
      | [] => [[x]]
      | r :: rs => (x :: r) :: rs

/-- `apiSecret.split("_")` as a list of strings. -/
def jsSplitUnderscore (s : String) : List String :=
  (splitOnChar '_' s.data).map List.asString

/-- The `AgentRPC` constructor, up to the fields the claims concern.  A
missing or falsy (empty) apiSecret throws; the secret is split on `"_"` into
`[prefix, clusterId, rand]` (missing segments are undefined, modelled as "");
it throws unless the first segment is `"sk"` and the second and third are
truthy.  A custom endpoint without an mcpUuid throws.  On success the state
holds the secret and the extracted cluster id. -/
def mkAgentRPC (apiSecret? endpoint? mcpUuid? : Option String) :
    Except AgentRPCError AgentRPCState :=
  match apiSecret? with
  | none => .error .noApiSecret
  | some apiSecret =>
    if apiSecret = "" then .error .noApiSecret
    else
      let parts := jsSplitUnderscore apiSecret
      let seg0 := parts.getD 0 ""
      let seg1 := parts.getD 1 ""
      let seg2 := parts.getD 2 ""
      if seg0 != "sk" || seg1 = "" || seg2 = "" then .error .invalidApiSecret
      else
        let endpoint := jsOr endpoint? "https://api.agentrpc.com"
        if endpoint ≠ "https://api.agentrpc.com" && jsOr mcpUuid? "" = "" then
          .error .mcpUuidRequired
        else
          .ok ⟨apiSecret, seg1, [], []⟩

/-- `AgentRPC.getClusterId`. -/
def AgentRPC.getClusterId (s : AgentRPCState) : String :=
  s.clusterId

/-- The credential shape the claim describes, following the claim's words:
the underscore-separated form is `"sk"` followed by a non-empty cluster id
and a non-empty third segment. -/
def goodSecretFormSpec (s : String) : Prop :=
  (jsSplitUnderscore s).getD 0 "" = "sk" ∧
  (jsSplitUnderscore s).getD 1 "" ≠ "" ∧
  (jsSplitUnderscore s).getD 2 "" ≠ ""

instance (s : String) : Decidable (goodSecretFormSpec s) := by
  unfold goodSecretFormSpec
  infer_instance

/-- A concrete registration whose schema accepts everything and whose handler
echoes its argument; used in witnesses. -/
def passTool : ToolRegistration :=
  ⟨"echo", fun _ => none, HandlerField.callable (fun v => HandlerOutcome.ret v),
   none, none⟩

/-- A concrete registration whose schema rejects everything; used in
witnesses. -/
def failSchemaTool : ToolRegistration :=
  ⟨"strict", fun _ => some ⟨"ZodError", "invalid input"⟩,
   HandlerField.callable (fun v => HandlerOutcome.ret v), none, none⟩

/-- A concrete object input; used in witnesses. -/
def sampleObj : JsonValue :=
  JsonValue.obj [("name", JsonValue.str "x")]

/-- C1: for a job whose function matches a registered tool and whose input is
a non-null, non-array object passing schema validation, the handler is
invoked exactly once with the validated input, and the posted result has
content equal to the handler's return value and type success. -/
theorem C1_valid_input_success (tools : List ToolRegistration)
    (clusterId : String) (call : JobMessage) (elapsed : Nat)
    (reg : ToolRegistration) (fields : List (String × JsonValue))
    (f : JsonValue → HandlerOutcome) (v : JsonValue)
    (hfind : tools.find? (fun fn => fn.name == call.function) = some reg)
    (hinput : call.input = some (JsonValue.obj fields))
    (hvalid : reg.schema (JsonValue.obj fields) = none)
    (hcallable : reg.handler = HandlerField.callable f)
    (hret : f (JsonValue.obj fields) = HandlerOutcome.ret v) :
    processCall tools clusterId call elapsed =
      [AgentEvent.validateCall call.function (JsonValue.obj fields),
       AgentEvent.invokeHandler call.function (JsonValue.obj fields),
       AgentEvent.postResult
         ⟨call.id, clusterId, ResultContent.value v, ResultType.success,
          elapsed⟩] ∧
    (processCall tools clusterId call elapsed).countP
      (fun e => e.isInvoke) = 1 := by
  have h : processCall tools clusterId call elapsed =
      [AgentEvent.validateCall call.function (JsonValue.obj fields),
       AgentEvent.invokeHandler call.function (JsonValue.obj fields),
       AgentEvent.postResult
         ⟨call.id, clusterId, ResultContent.value v, ResultType.success,
          elapsed⟩] := by
    simp [processCall, hfind, hinput, hvalid, executeFn, hcallable, hret]
  refine ⟨h, ?_⟩
  rw [h]
  simp [AgentEvent.isInvoke]

/-- C1 witness: the echo tool on a concrete object input. -/
theorem C1_witness :
    processCall [passTool] "c1" ⟨"j1", "echo", some sampleObj⟩ 5 =
      [AgentEvent.validateCall "echo" sampleObj,
       AgentEvent.invokeHandler "echo" sampleObj,
       AgentEvent.postResult
         ⟨"j1", "c1", ResultContent.value sampleObj, ResultType.success, 5⟩] ∧
    (processCall [passTool] "c1" ⟨"j1", "echo", some sampleObj⟩ 5).countP
      (fun e => e.isInvoke) = 1 :=
  C1_valid_input_success [passTool] "c1" ⟨"j1", "echo", some sampleObj⟩ 5
    passTool [("name", JsonValue.str "x")] (fun v => HandlerOutcome.ret v)
    sampleObj rfl rfl rfl rfl rfl

/-- C2: for a job whose function matches a registered tool but whose input is
absent, null, an array or a primitive, the posted result is a rejection with
a descriptive error, and neither schema validation nor the handler runs. -/
theorem C2_invalid_shape_rejected (tools : List ToolRegistration)
    (clusterId : String) (call : JobMessage) (elapsed : Nat)
    (reg : ToolRegistration)
    (hfind : tools.find? (fun fn => fn.name == call.function) = some reg)
    (hshape : isObjectInput call.input = false) :
    processCall tools clusterId call elapsed =
      [AgentEvent.postResult
        ⟨call.id, clusterId,
         ResultContent.errorContent (serializeError ⟨"Error", invalidShapeMessage⟩),
         ResultType.rejection, 0⟩] ∧
    (processCall tools clusterId call elapsed).countP
      (fun e => e.isInvoke) = 0 ∧
    (processCall tools clusterId call elapsed).countP
      (fun e => e.isValidate) = 0 := by
  have h : processCall tools clusterId call elapsed =
      [AgentEvent.postResult
        ⟨call.id, clusterId,
         ResultContent.errorContent (serializeError ⟨"Error", invalidShapeMessage⟩),
         ResultType.rejection, 0⟩] := by
    unfold processCall
    rw [hfind]
    rcases hinp : call.input with _ | v
    · rfl
    · rcases v with _ | b | n | s | xs | fs
      · rfl
      · rfl
      · rfl
      · rfl
      · rfl
      · rw [hinp] at hshape
        simp [isObjectInput] at hshape
  refine ⟨h, ?_, ?_⟩ <;> rw [h] <;>
    simp [AgentEvent.isInvoke, AgentEvent.isValidate]

/-- C2 witness: the echo tool called with a null input. -/
theorem C2_witness :
    processCall [passTool] "c1" ⟨"j2", "echo", some JsonValue.null⟩ 7 =
      [AgentEvent.postResult
        ⟨"j2", "c1",
         ResultContent.errorContent (serializeError ⟨"Error", invalidShapeMessage⟩),
         ResultType.rejection, 0⟩] ∧
    (processCall [passTool] "c1" ⟨"j2", "echo", some JsonValue.null⟩ 7).countP
      (fun e => e.isInvoke) = 0 ∧
    (processCall [passTool] "c1" ⟨"j2", "echo", some JsonValue.null⟩ 7).countP
      (fun e => e.isValidate) = 0 :=
  C2_invalid_shape_rejected [passTool] "c1" ⟨"j2", "echo", some JsonValue.null⟩
    7 passTool rfl rfl

/-- C3: for a job whose object input fails schema validation, the posted
result is a rejection whose content is the serialized validation error, and
the handler never runs. -/
theorem C3_schema_failure_rejected (tools : List ToolRegistration)
    (clusterId : String) (call : JobMessage) (elapsed : Nat)
    (reg : ToolRegistration) (fields : List (String × JsonValue)) (e : JsError)
    (hfind : tools.find? (fun fn => fn.name == call.function) = some reg)
    (hinput : call.input = some (JsonValue.obj fields))
    (hvalid : reg.schema (JsonValue.obj fields) = some e) :
    processCall tools clusterId call elapsed =
      [AgentEvent.validateCall call.function (JsonValue.obj fields),
       AgentEvent.postResult
         ⟨call.id, clusterId, ResultContent.errorContent (serializeError e),
          ResultType.rejection, 0⟩] ∧
    (processCall tools clusterId call elapsed).countP
      (fun e => e.isInvoke) = 0 := by
  have h : processCall tools clusterId call elapsed =
      [AgentEvent.validateCall call.function (JsonValue.obj fields),
       AgentEvent.postResult
         ⟨call.id, clusterId, ResultContent.errorContent (serializeError e),
          ResultType.rejection, 0⟩] := by
    simp [processCall, hfind, hinput, hvalid]
  refine ⟨h, ?_⟩
  rw [h]
  simp [AgentEvent.isInvoke]

/-- C3 witness: the always-rejecting tool on a concrete object input. -/
theorem C3_witness :
    processCall [failSchemaTool] "c1" ⟨"j3", "strict", some sampleObj⟩ 9 =
      [AgentEvent.validateCall "strict" sampleObj,
       AgentEvent.postResult
         ⟨"j3", "c1",
          ResultContent.errorContent (serializeError ⟨"ZodError", "invalid input"⟩),
          ResultType.rejection, 0⟩] ∧
    (processCall [failSchemaTool] "c1" ⟨"j3", "strict", some sampleObj⟩ 9).countP
      (fun e => e.isInvoke) = 0 :=
  C3_schema_failure_rejected [failSchemaTool] "c1"
    ⟨"j3", "strict", some sampleObj⟩ 9 failSchemaTool
    [("name", JsonValue.str "x")] ⟨"ZodError", "invalid input"⟩ rfl rfl rfl

/-- C4: a job whose function matches no registered tool produces no events at
all: no result is posted and no handler runs; the job is dropped. -/
theorem C4_unknown_function_dropped (tools : List ToolRegistration)
    (clusterId : String) (call : JobMessage) (elapsed : Nat)
    (hfind : tools.find? (fun fn => fn.name == call.function) = none) :
    processCall tools clusterId call elapsed = [] ∧
    (processCall tools clusterId call elapsed).countP
      (fun e => e.isPost) = 0 ∧
    (processCall tools clusterId call elapsed).countP
      (fun e => e.isInvoke) = 0 := by
  have h : processCall tools clusterId call elapsed = [] := by
    unfold processCall
    rw [hfind]
  exact ⟨h, by rw [h]; rfl, by rw [h]; rfl⟩

/-- C4 witness: a job for an unregistered function name. -/
theorem C4_witness :
    processCall [passTool] "c1" ⟨"j4", "unknown", some sampleObj⟩ 3 = [] ∧
    (processCall [passTool] "c1" ⟨"j4", "unknown", some sampleObj⟩ 3).countP
      (fun e => e.isPost) = 0 ∧
    (processCall [passTool] "c1" ⟨"j4", "unknown", some sampleObj⟩ 3).countP
      (fun e => e.isInvoke) = 0 :=
  C4_unknown_function_dropped [passTool] "c1"
    ⟨"j4", "unknown", some sampleObj⟩ 3 rfl

/-- C10: any result posted without the handler having been invoked — a
shape rejection or a schema-validation rejection — carries
functionExecutionTime 0. -/
theorem C10_rejection_time_zero (tools : List ToolRegistration)
    (clusterId : String) (call : JobMessage) (elapsed : Nat)
    (r : CreateJobResultCall)
    (hpost : AgentEvent.postResult r ∈ processCall tools clusterId call elapsed)
    (hnoinv : (processCall tools clusterId call elapsed).countP
      (fun e => e.isInvoke) = 0) :
    r.functionExecutionTime = 0 := by
  rcases hf : tools.find? (fun fn => fn.name == call.function) with _ | reg
  · simp [processCall, hf] at hpost
  · rcases hinp : call.input with _ | v
    · simp [processCall, hf, hinp] at hpost
      rw [hpost]
    · rcases v with _ | b | n | s | xs | fs
      · simp [processCall, hf, hinp] at hpost
        rw [hpost]
      · simp [processCall, hf, hinp] at hpost
        rw [hpost]
      · simp [processCall, hf, hinp] at hpost
        rw [hpost]
      · simp [processCall, hf, hinp] at hpost
        rw [hpost]
      · simp [processCall, hf, hinp] at hpost
        rw [hpost]
      · rcases hv : reg.schema (JsonValue.obj fs) with _ | e
        · simp [processCall, hf, hinp, hv, AgentEvent.isInvoke] at hnoinv
        · simp [processCall, hf, hinp, hv] at hpost
          rw [hpost]

/-- C10 witness: the shape-rejection result of a null-input job has
functionExecutionTime 0. -/
theorem C10_witness :
    (⟨"j2", "c1",
      ResultContent.errorContent (serializeError ⟨"Error", invalidShapeMessage⟩),
      ResultType.rejection, 0⟩ : CreateJobResultCall).functionExecutionTime
      = 0 :=
  C10_rejection_time_zero [passTool] "c1" ⟨"j2", "echo", some JsonValue.null⟩
    7 _ (by simp [processCall, passTool]) (by simp [processCall, passTool, AgentEvent.isInvoke])

/-- A concrete facade state with one registered tool and no listener; used in
witnesses. -/
def facadeReady : AgentRPCState :=
  ⟨"sk_abc_def", "abc", [("echo", passTool)], []⟩

/-- A concrete facade state after a successful listen; used in witnesses. -/
def facadeListening : AgentRPCState :=
  (AgentRPC.listen facadeReady).1

/-- C5: registering a name already present in the registry throws the
duplicate-name configuration error and leaves the whole state, registry
included, unchanged. -/
theorem C5_duplicate_name_rejected (s : AgentRPCState) (r r0 : ToolRegistration)
    (h : lookupTool s.toolsRegistry r.name = some r0) :
    (AgentRPC.register s r).2 = some (AgentRPCError.duplicateToolName r.name) ∧
    (AgentRPC.register s r).1 = s := by
  have hsome : (lookupTool s.toolsRegistry r.name).isSome = true := by
    rw [h]; rfl
  constructor <;> simp [AgentRPC.register, hsome]

/-- C5 witness: re-registering "echo" on a state that already holds it. -/
theorem C5_witness :
    (AgentRPC.register facadeReady passTool).2 =
      some (AgentRPCError.duplicateToolName "echo") ∧
    (AgentRPC.register facadeReady passTool).1 = facadeReady :=
  C5_duplicate_name_rejected facadeReady passTool passTool rfl

/-- C6: once a listening agent exists, registering any new tool name throws
the register-after-listen configuration error with the state unchanged, and a
second listen throws the already-listening error rather than being a no-op;
moreover a successful listen does create such an agent. -/
theorem C6_register_and_listen_after_listen (s : AgentRPCState)
    (r : ToolRegistration)
    (hagents : s.pollingAgents ≠ [])
    (hnew : lookupTool s.toolsRegistry r.name = none) :
    ((AgentRPC.register s r).2 = some AgentRPCError.registerAfterListen ∧
     (AgentRPC.register s r).1 = s) ∧
    ((AgentRPC.listen s).2 = some AgentRPCError.alreadyListening ∧
     (AgentRPC.listen s).1 = s) ∧
    (∀ s0 : AgentRPCState, (AgentRPC.listen s0).2 = none →
      ((AgentRPC.listen s0).1).pollingAgents ≠ []) := by
  have hlen : 0 < s.pollingAgents.length := List.length_pos.mpr hagents
  have hnone : (lookupTool s.toolsRegistry r.name).isSome = false := by
    rw [hnew]; rfl
  refine ⟨⟨?_, ?_⟩, ⟨?_, ?_⟩, ?_⟩
  · simp [AgentRPC.register, hnone, hlen]
  · simp [AgentRPC.register, hnone, hlen]
  · simp [AgentRPC.listen, hlen]
  · simp [AgentRPC.listen, hlen]
  · intro s0 hok
    by_cases h0 : 0 < s0.pollingAgents.length
    · simp [AgentRPC.listen, h0] at hok
    · simp [AgentRPC.listen, h0]

/-- C6 witness: the state after listening rejects both a new registration and
a second listen. -/
theorem C6_witness :
    ((AgentRPC.register facadeListening failSchemaTool).2 =
       some AgentRPCError.registerAfterListen ∧
     (AgentRPC.register facadeListening failSchemaTool).1 = facadeListening) ∧
    ((AgentRPC.listen facadeListening).2 =
       some AgentRPCError.alreadyListening ∧
     (AgentRPC.listen facadeListening).1 = facadeListening) ∧
    (∀ s0 : AgentRPCState, (AgentRPC.listen s0).2 = none →
      ((AgentRPC.listen s0).1).pollingAgents ≠ []) :=
  C6_register_and_listen_after_listen facadeListening failSchemaTool
    (by simp [facadeListening, facadeReady, AgentRPC.listen])
    rfl


/-- Normal form of the constructor on a provided credential: the empty
(falsy) secret is a missing-secret error, a bad split shape is an
invalid-secret error, and otherwise the state holds the second segment as
cluster id. -/
theorem mkAgentRPC_some_eq (s : String) :
    mkAgentRPC (some s) none none =
      if s = "" then Except.error AgentRPCError.noApiSecret
      else if goodSecretFormSpec s then
        Except.ok ⟨s, (jsSplitUnderscore s).getD 1 "", [], []⟩
      else Except.error AgentRPCError.invalidApiSecret := by
  unfold mkAgentRPC
  by_cases hs : s = ""
  · simp [hs]
  · by_cases h0 : (jsSplitUnderscore s)[0]?.getD "" = "sk"
    · by_cases h1 : (jsSplitUnderscore s)[1]?.getD "" = ""
      · simp [hs, h0, h1, goodSecretFormSpec, List.getD_eq_getElem?_getD]
      · by_cases h2 : (jsSplitUnderscore s)[2]?.getD "" = ""
        · simp [hs, h0, h1, h2, goodSecretFormSpec, List.getD_eq_getElem?_getD]
        · simp [hs, h0, h1, h2, goodSecretFormSpec, List.getD_eq_getElem?_getD,
            jsOr]
    · simp [hs, h0, goodSecretFormSpec, List.getD_eq_getElem?_getD]

/-- C9: a missing credential throws; a provided credential is accepted
exactly when its underscore-separated form is "sk" followed by a non-empty
cluster id and a non-empty third segment; and on acceptance getClusterId
returns the second underscore-separated segment. -/
theorem C9_credential_validation :
    (mkAgentRPC none none none = Except.error AgentRPCError.noApiSecret) ∧
    (∀ s : String,
      (∃ st, mkAgentRPC (some s) none none = Except.ok st) ↔
        goodSecretFormSpec s) ∧
    (∀ (s : String) (st : AgentRPCState),
      mkAgentRPC (some s) none none = Except.ok st →
      AgentRPC.getClusterId st = (jsSplitUnderscore s).getD 1 "") := by
  refine ⟨rfl, ?_, ?_⟩
  · intro s
    rw [mkAgentRPC_some_eq]
    by_cases hs : s = ""
    · subst hs
      simp only [if_pos rfl]
      constructor
      · rintro ⟨st, hst⟩
        cases hst
      · intro hg
        exact absurd hg.1 (by decide)
    · rw [if_neg hs]
      by_cases hg : goodSecretFormSpec s
      · simp only [if_pos hg]
        exact ⟨fun _ => hg, fun _ => ⟨_, rfl⟩⟩
      · simp only [if_neg hg]
        constructor
        · rintro ⟨st, hst⟩
          cases hst
        · intro h
          exact absurd h hg
  · intro s st hst
    rw [mkAgentRPC_some_eq] at hst
    by_cases hs : s = ""
    · rw [if_pos hs] at hst; cases hst
    · rw [if_neg hs] at hst
      by_cases hg : goodSecretFormSpec s
      · rw [if_pos hg] at hst
        cases hst
        rfl
      · rw [if_neg hg] at hst; cases hst

/-- C9 witness: the concrete credential "sk_abc_def" is accepted and its
cluster id is "abc". -/
theorem C9_witness :
    (∃ st, mkAgentRPC (some "sk_abc_def") none none = Except.ok st) ∧
    AgentRPC.getClusterId ⟨"sk_abc_def", "abc", [], []⟩ = "abc" :=
  ⟨(C9_credential_validation.2.1 "sk_abc_def").mpr (by decide),
   C9_credential_validation.2.2 "sk_abc_def" ⟨"sk_abc_def", "abc", [], []⟩
     (by rw [mkAgentRPC_some_eq]; rfl)⟩

/-- Once the polling flag is false, the loop body never runs again. -/
theorem runLoopSteps_not_polling (s : LoopState)
    (sched : List (IterOutcome × Bool)) (h : s.polling = false) :
    runLoopSteps s sched = (s, 0) := by
  cases sched with
  | nil => rfl
  | cons p rest => simp [runLoopSteps, h]

/-- With no stop request in the schedule, the loop executes every scheduled
iteration and is still polling afterwards, whatever the outcomes were. -/
theorem runLoopSteps_no_stop (sched : List (IterOutcome × Bool)) :
    ∀ s : LoopState, s.polling = true → (∀ p ∈ sched, p.2 = false) →
    (runLoopSteps s sched).2 = sched.length ∧
    (runLoopSteps s sched).1.polling = true := by
  induction sched with
  | nil =>
    intro s hp _
    exact ⟨rfl, hp⟩
  | cons p rest ih =>
    intro s hp hns
    obtain ⟨o, stopRequested⟩ := p
    have h2 : stopRequested = false := hns (o, stopRequested) (by simp)
    subst h2
    have := ih ⟨true, iterStep s.failureCount o⟩ rfl
      (fun q hq => hns q (List.mem_cons_of_mem _ hq))
    simp only [runLoopSteps, hp, if_true, List.length_cons]
    constructor
    · simpa using this.1
    · simpa using this.2

/-- If the first stop request occurs at the iteration `pre.length`, the loop
executes exactly `pre.length + 1` iterations and ends with polling false. -/
theorem runLoopSteps_stops (pre : List (IterOutcome × Bool)) :
    ∀ (s : LoopState) (o : IterOutcome) (post : List (IterOutcome × Bool)),
    s.polling = true → (∀ p ∈ pre, p.2 = false) →
    (runLoopSteps s (pre ++ (o, true) :: post)).2 = pre.length + 1 ∧
    (runLoopSteps s (pre ++ (o, true) :: post)).1.polling = false := by
  induction pre with
  | nil =>
    intro s o post hp _
    have hstop := runLoopSteps_not_polling
      ⟨false, iterStep s.failureCount o⟩ post rfl
    simp [runLoopSteps, hp, hstop]
  | cons p rest ih =>
    intro s o post hp hns
    obtain ⟨o0, stopRequested⟩ := p
    have h2 : stopRequested = false := hns (o0, stopRequested) (by simp)
    subst h2
    have := ih ⟨true, iterStep s.failureCount o0⟩ o post rfl
      (fun q hq => hns q (List.mem_cons_of_mem _ hq))
    simp only [List.cons_append, runLoopSteps, hp, if_true, List.length_cons]
    constructor
    · simpa using this.1
    · simpa using this.2

/-- C7: an iteration that throws (as a missing clusterId at poll time always
does) increments the consecutive-failure counter and the loop keeps running;
a successful iteration resets the counter to zero; with no stop request the
loop executes every iteration of any schedule and remains polling, and it
stops, one iteration boundary later, exactly when `stop()` clears the
polling flag. -/
theorem C7_loop_survives_failures :
    (∀ fc : Nat, iterStep fc IterOutcome.err = fc + 1) ∧
    (∀ fc : Nat, iterStep fc IterOutcome.ok = 0) ∧
    (∀ t : TransportResult, pollIterationOutcome "" t = IterOutcome.err) ∧
    (∀ sched : List (IterOutcome × Bool), (∀ p ∈ sched, p.2 = false) →
      (runLoop sched).2 = sched.length ∧ (runLoop sched).1.polling = true) ∧
    (∀ (pre : List (IterOutcome × Bool)) (o : IterOutcome)
       (post : List (IterOutcome × Bool)), (∀ p ∈ pre, p.2 = false) →
      (runLoop (pre ++ (o, true) :: post)).2 = pre.length + 1 ∧
      (runLoop (pre ++ (o, true) :: post)).1.polling = false) ∧
    (∀ a : PollingAgentState, (PollingAgent.stop a).polling = false) := by
  refine ⟨fun fc => rfl, fun fc => rfl, fun t => rfl, ?_, ?_, fun a => rfl⟩
  · intro sched hns
    exact runLoopSteps_no_stop sched ⟨true, 0⟩ rfl hns
  · intro pre o post hns
    exact runLoopSteps_stops pre ⟨true, 0⟩ o post rfl hns

/-- C7 witness: a schedule of two failing iterations, a successful one, and
an iteration during which stop() is called runs exactly four iterations and
ends not polling. -/
theorem C7_witness :
    (runLoop [(IterOutcome.err, false), (IterOutcome.err, false),
              (IterOutcome.ok, false), (IterOutcome.ok, true)]).2 = 4 ∧
    (runLoop [(IterOutcome.err, false), (IterOutcome.err, false),
              (IterOutcome.ok, false), (IterOutcome.ok, true)]).1.polling
      = false := by
  have h := C7_loop_survives_failures.2.2.2.2.1
    [(IterOutcome.err, false), (IterOutcome.err, false),
     (IterOutcome.ok, false)] IterOutcome.ok []
    (by intro p hp; fin_cases hp <;> rfl)
  simpa using h

/-- Whenever the completion loop returns, the returned status is terminal. -/
theorem pollForJobCompletion_terminal (fuel : Nat) :
    ∀ (responses : Nat → GetJobResponse) (i : Nat) (status : Option String)
      (result resultType : String) (t : String × String × String),
    pollForJobCompletion responses i fuel status result resultType = some t →
    t.1 = "done" ∨ t.1 = "failure" := by
  induction fuel with
  | zero =>
    intro responses i status result resultType t h
    cases h
  | succ fuel ih =>
    intro responses i status result resultType t h
    by_cases ht : isTerminal status = true
    · rcases status with _ | st
      · cases ht
      · have hst : st = "failure" ∨ st = "done" := by
          have := ht
          simp [isTerminal] at this
          tauto
        simp [pollForJobCompletion, ht] at h
        rcases hst with h1 | h1 <;> rw [← h, ← h1] <;> simp [h1]
    · rw [pollForJobCompletion, if_neg ht] at h
      exact ih responses (i + 1) _ _ _ t h

/-- If the initial status is not terminal, the first terminal `getJob`
response is the (n+1)-st, and the fuel allows it, the loop returns exactly
that response's fields (with the falsy defaults applied). -/
theorem pollForJobCompletion_first_terminal (n : Nat) :
    ∀ (responses : Nat → GetJobResponse) (i : Nat) (status : Option String)
      (result resultType : String),
    isTerminal status = false →
    (∀ m, m < n → isTerminal (responses (i + m)).status = false) →
    isTerminal (responses (i + n)).status = true →
    pollForJobCompletion responses i (n + 2) status result resultType =
      some ((responses (i + n)).status.getD "",
        jsOr (responses (i + n)).result "",
        jsOr (responses (i + n)).resultType "rejection") := by
  induction n with
  | zero =>
    intro responses i status result resultType h0 _ hterm
    rw [pollForJobCompletion, if_neg (by rw [h0]; exact Bool.false_ne_true)]
    rw [pollForJobCompletion, if_pos (by simpa using hterm)]
    simp
  | succ n ih =>
    intro responses i status result resultType h0 hpre hterm
    rw [show n + 1 + 2 = (n + 2) + 1 from rfl, pollForJobCompletion,
      if_neg (by rw [h0]; exact Bool.false_ne_true)]
    have hfirst : isTerminal (responses i).status = false := by
      have := hpre 0 (Nat.succ_pos n)
      simpa using this
    have hpre' : ∀ m, m < n → isTerminal (responses (i + 1 + m)).status = false := by
      intro m hm
      have := hpre (m + 1) (by omega)
      have harith : i + (m + 1) = i + 1 + m := by omega
      rwa [harith] at this
    have hterm' : isTerminal (responses (i + 1 + n)).status = true := by
      have harith : i + (n + 1) = i + 1 + n := by omega
      rwa [harith] at hterm
    have := ih responses (i + 1) (responses i).status
      (jsOr (responses i).result "") (jsOr (responses i).resultType "rejection")
      hfirst hpre' hterm'
    rw [this]
    have harith : i + 1 + n = i + (n + 1) := by omega
    rw [harith]

/-- With a non-terminal initial status and no terminal response among the
first n, fuel n+1 is not enough for the loop to return: it makes all n+1
`getJob` calls and is still going.  Together with the previous lemma this
shows the loop has no maximum-attempts cutoff. -/
theorem pollForJobCompletion_needs_fuel (n : Nat) :
    ∀ (responses : Nat → GetJobResponse) (i : Nat) (status : Option String)
      (result resultType : String),
    isTerminal status = false →
    (∀ m, m < n → isTerminal (responses (i + m)).status = false) →
    pollForJobCompletion responses i (n + 1) status result resultType =
      none := by
  induction n with
  | zero =>
    intro responses i status result resultType h0 _
    rw [pollForJobCompletion, if_neg (by rw [h0]; exact Bool.false_ne_true)]
    rfl
  | succ n ih =>
    intro responses i status result resultType h0 hpre
    rw [show n + 1 + 1 = (n + 1) + 1 from rfl, pollForJobCompletion,
      if_neg (by rw [h0]; exact Bool.false_ne_true)]
    have hfirst : isTerminal (responses i).status = false := by
      have := hpre 0 (Nat.succ_pos n)
      simpa using this
    have hpre' : ∀ m, m < n → isTerminal (responses (i + 1 + m)).status = false := by
      intro m hm
      have := hpre (m + 1) (by omega)
      have harith : i + (m + 1) = i + 1 + m := by omega
      rwa [harith] at this
    exact ih responses (i + 1) (responses i).status
      (jsOr (responses i).result "") (jsOr (responses i).resultType "rejection")
      hfirst hpre'

/-- C8: the job-completion helper returns only with a terminal status (done
or failure); when the first terminal `getJob` response is the (n+1)-st, the
returned triple is exactly that last response's status/result/resultType
(with the falsy defaults); and for every n there is a response stream on
which it makes n+1 `getJob` calls and still returns — there is no
maximum-attempts cutoff. -/
theorem C8_poll_until_terminal :
    (∀ (fuel : Nat) (responses : Nat → GetJobResponse) (i : Nat)
       (status : Option String) (result resultType : String)
       (t : String × String × String),
      pollForJobCompletion responses i fuel status result resultType = some t →
      t.1 = "done" ∨ t.1 = "failure") ∧
    (∀ (n : Nat) (responses : Nat → GetJobResponse)
       (createResult : CreateJobResponse),
      isTerminal createResult.status = false →
      (∀ m, m < n → isTerminal (responses m).status = false) →
      isTerminal (responses n).status = true →
      createAndPollJob responses (n + 2) createResult =
        some ((responses n).status.getD "", jsOr (responses n).result "",
          jsOr (responses n).resultType "rejection")) ∧
    (∀ n : Nat,
      createAndPollJob (pendingThenDone n) (n + 2)
        ⟨"job", some "pending", none, none⟩ =
        some ("done", "ok", "resolution") ∧
      createAndPollJob (pendingThenDone n) (n + 1)
        ⟨"job", some "pending", none, none⟩ = none) := by
  refine ⟨pollForJobCompletion_terminal, ?_, ?_⟩
  · intro n responses createResult h0 hpre hterm
    unfold createAndPollJob
    have := pollForJobCompletion_first_terminal n responses 0
      createResult.status (jsOr createResult.result "")
      (jsOr createResult.resultType "rejection") h0
      (by intro m hm; simpa using hpre m hm) (by simpa using hterm)
    simpa using this
  · intro n
    have hpre : ∀ m, m < n →
        isTerminal (pendingThenDone n m).status = false := by
      intro m hm
      simp [pendingThenDone, hm, isTerminal]
    have hterm : isTerminal (pendingThenDone n n).status = true := by
      simp [pendingThenDone, isTerminal]
    constructor
    · have := pollForJobCompletion_first_terminal n (pendingThenDone n) 0
        (some "pending") "" "rejection" (by decide)
        (by intro m hm; simpa using hpre m hm) (by simpa using hterm)
      unfold createAndPollJob
      simp only [jsOr] at this ⊢
      rw [this]
      simp [pendingThenDone, jsOr]
    · have := pollForJobCompletion_needs_fuel n (pendingThenDone n) 0
        (some "pending") "" "rejection" (by decide)
        (by intro m hm; simpa using hpre m hm)
      unfold createAndPollJob
      simpa [jsOr] using this

/-- C8 witness: a stream that answers pending once and then done. -/
theorem C8_witness :
    createAndPollJob (pendingThenDone 1) 3 ⟨"job", some "pending", none, none⟩ =
      some ("done", "ok", "resolution") ∧
    createAndPollJob (pendingThenDone 1) 2 ⟨"job", some "pending", none, none⟩ =
      none :=
  C8_poll_until_terminal.2.2 1
